import Mathlib

/-!
Shallow embedding of the notebook `vector_data_bases_and_vector_embeddings.ipynb`.

The notebook is a linear script: it reads the credential `OPENAI_API_KEY` from
the environment, requests embeddings from the OpenAI endpoint (directly and via
the helper `get_embedding`), computes Euclidean distances with
`np.linalg.norm`, vectorizes five service-station profiles in a loop, fits
`KMeans(n_clusters=2, n_init='auto', random_state=40)` from scikit-learn, and
displays a table pairing each cluster label with its profile text, sorted by
label.

External effects (environment lookup and the embedding API call) are embedded
as a small free monad `Eff`; running a program needs an environment map and an
embedding oracle, and any failure of an external call propagates, exactly as an
uncaught Python exception would.  The scikit-learn `KMeans.fit` call is a
library function whose body is not part of the repository; it enters the model
as a function parameter `KMeansOracle` receiving the configuration recorded in
the notebook and the data.  Scalars are real numbers.
-/

namespace VecDemo

/-- Errors a notebook run can surface: a `KeyError` from `os.environ[...]` on a
missing variable, or an error raised by the OpenAI API call (network failure,
bad credential, malformed response — the model does not distinguish them, the
notebook treats none of them). -/
inductive PyErr where
  | keyError (name : String)
  | apiError (message : String)
deriving DecidableEq, Repr

/-- External calls the notebook can make, as recorded in a call log:
a read of an environment variable, or a request to the embedding endpoint
with an input string and an engine (model) identifier. -/
inductive ExtCall where
  | envRead (name : String)
  | embedCreate (input : String) (engine : String)
deriving DecidableEq, Repr

/-- Free-monad style embedding of the notebook's effectful code.  Each
constructor is one kind of external call, carrying its continuation. -/
inductive Eff (α : Type) where
  | pure (a : α)
  | envRead (name : String) (k : String → Eff α)
  | embedCreate (input : String) (engine : String) (k : List ℝ → Eff α)

/-- The process environment: `os.environ`, a partial map from names to values. -/
def EnvMap : Type := String → Option String

/-- The external embedding endpoint: given the input string and the engine
identifier it either returns the embedding (a list of floats, here reals) or
raises an error.  The notebook has no influence on which. -/
def EmbedOracle : Type := String → String → Except PyErr (List ℝ)

/-- Run an effectful program against an environment and an embedding oracle.
A missing environment variable raises `KeyError` (as `os.environ[name]` does);
an API error propagates unchanged.  There is no handler anywhere: the
embedding has no construct for catching an error, mirroring the absence of
`try`/`except` in the source. -/
def Eff.run {α : Type} : Eff α → EnvMap → EmbedOracle → Except PyErr α
  | .pure a, _, _ => .ok a
  | .envRead n k, env, api =>
      match env n with
      | some v => (k v).run env api
      | none => .error (.keyError n)
  | .embedCreate s m k, env, api =>
      match api s m with
      | .ok v => (k v).run env api
      | .error e => .error e

/-- The sequence of external calls a program issues when run, in order.  A
call is logged when it is made, whether or not it succeeds; after a failing
call nothing further runs, so nothing further is logged. -/
def Eff.callLog {α : Type} : Eff α → EnvMap → EmbedOracle → List ExtCall
  | .pure _, _, _ => []
  | .envRead n k, env, api =>
      ExtCall.envRead n ::
        (match env n with
         | some v => (k v).callLog env api
         | none => [])
  | .embedCreate s m k, env, api =>
      ExtCall.embedCreate s m ::
        (match api s m with
         | .ok v => (k v).callLog env api
         | .error _ => [])

/-- Sequencing of effectful steps (the notebook's top-to-bottom cell order). -/
def Eff.bind {α β : Type} : Eff α → (α → Eff β) → Eff β
  | .pure a, f => f a
  | .envRead n k, f => .envRead n (fun v => (k v).bind f)
  | .embedCreate s m k, f => .embedCreate s m (fun v => (k v).bind f)

/-- First code cell: `openai.api_key = os.environ["OPENAI_API_KEY"]`.
Reads the credential from the environment; a missing variable raises
`KeyError` before anything else runs. -/
def api_key_cell : Eff String :=
  .envRead "OPENAI_API_KEY" .pure

/-- The notebook's embedding model identifier:
`model_id = "text-embedding-ada-002"`. -/
def model_id : String := "text-embedding-ada-002"

/-- Second code cell:
`embedding = openai.Embedding.create(input=text_string, engine=model_id)['data'][0]['embedding']`
with `text_string = "Hello, world!"`.  The raw Python list is kept. -/
def embedding_cell : Eff (List ℝ) :=
  .embedCreate "Hello, world!" model_id .pure

/-- The helper `get_embedding(string, model_id="text-embedding-ada-002")`:
one call `openai.Embedding.create(input=string, engine=model_id)` whose
`['data'][0]['embedding']` list is cast with `np.array` and returned.  The
`model_id` parameter's Python default is `"text-embedding-ada-002"`, the value
of `model_id` above; callers in the notebook rely on the default. -/
def get_embedding (string : String) (model_id : String) : Eff (Array ℝ) :=
  .embedCreate string model_id
    (fun embedding_as_list => .pure embedding_as_list.toArray)

/-- The in-notebook list of five service-station profile strings (apostrophes
written with the `\x27` escape). -/
def profiles : List String :=
  [ "Green Fuel Oasis, Surrey: Nestled in the picturesque countryside of Surrey, Green Fuel Oasis is a sustainable service station that offers a unique blend of eco-conscious services. Not only can you refuel your vehicle with clean, renewable energy options like battery recharging, bioethanol, and  biodiesel.",
    "Coastal Retreat Rest Stop, Cornwall: Located along the rugged coastline of Cornwall, this service station is a haven for travelers seeking relaxation. With breathtaking ocean views, it\x27s the perfect spot to take a break, refuel, and savor locally sourced seafood at the seafood grill. Don\x27t forget to explore the coastal walking trails nearby.",
    "TechHub Express, Manchester: For the tech-savvy traveler, TechHub Express in Manchester is a cutting-edge service station. Offering fast Wi-Fi, stations for electric vehicles, a variety of biofuels, and a state-of-the-art VR gaming lounge, it\x27s a place where you can recharge both your car and your devices while having a blast.",
    "Highland Haven, Scotland: Situated amidst the stunning Scottish Highlands, Highland Haven is a serene service station catering to adventurers exploring the rugged landscapes. Sample traditional Scottish fare at the cozy café, all while gazing at panoramic mountain vistas.",
    "Countryside Classic, Cotswolds: Experience the charm of the Cotswolds at Countryside Classic, a service station that embodies the region\x27s quintessential beauty. This idyllic spot and serves up classic British tea and scones in a quaint, cottage-style café surrounded by rolling hills and historic villages." ]

/-- The vectorization loop:

```
profiles_vectorized  = []
for profile in profiles:
    embedding = openai.Embedding.create(input=profile, engine=model_id)['data'][0]['embedding']
    profiles_vectorized.append(embedding)
```

One API call per remaining profile, appending each raw list to the
accumulator. -/
def profilesLoop (model : String) : List String → List (List ℝ) → Eff (List (List ℝ))
  | [], acc => .pure acc
  | profile :: rest, acc =>
      .embedCreate profile model
        (fun embedding => profilesLoop model rest (acc ++ [embedding]))

/-- The whole `profiles_vectorized` cell: the loop starting from the empty
list, over `profiles`, with the global `model_id`. -/
def profiles_vectorized_cell : Eff (List (List ℝ)) :=
  profilesLoop model_id profiles []

/-- `np.linalg.norm` on a one-dimensional array with default arguments: the
2-norm, the square root of the sum of the squares of the entries. -/
noncomputable def npLinalgNorm (a : Array ℝ) : ℝ :=
  Real.sqrt ((a.toList.map (fun x => x ^ 2)).sum)

/-- NumPy elementwise subtraction of two one-dimensional arrays
(as in `dog_vector - cat_vector`). -/
def npSub (v w : Array ℝ) : Array ℝ :=
  v.zipWith w (fun x y => x - y)

/-- The keyword arguments of the `KMeans(...)` constructor call in the
notebook: `n_clusters=2, n_init='auto', random_state=40`. -/
structure KMeansArgs where
  n_clusters : ℕ
  n_init : String
  random_state : ℕ
deriving DecidableEq, Repr

/-- The scikit-learn `KMeans` fit, seen from the notebook: a library function
from the constructor arguments (cluster count, initialization mode, random
seed) and the data to the array `kmeans.labels_` of cluster labels.  Its body
lives in scikit-learn, outside this repository, so it is a parameter of the
model; with `random_state` among its inputs it is a function, hence
deterministic. -/
def KMeansOracle : Type := KMeansArgs → List (List ℝ) → List ℕ

/-- The argument record the notebook passes:
`KMeans(n_clusters=2, n_init='auto', random_state=40)`. -/
def kmeansArgs : KMeansArgs :=
  { n_clusters := 2, n_init := "auto", random_state := 40 }

/-- The clustering cell `kmeans.fit(profiles_vectorized)` followed by reading
`kmeans.labels_`: a single direct application of the library routine to the
notebook's fixed arguments and the data. -/
def kmeansFitStep (fit : KMeansOracle) (data : List (List ℝ)) : List ℕ :=
  fit kmeansArgs data

/-- Comparison used by `sort_values(by=['cluster'])`: order rows by the
`cluster` column. -/
def clusterLe (r s : ℕ × String) : Bool :=
  r.1 ≤ s.1

/-- The displayed table cell:
`pd.DataFrame({"cluster": kmeans.labels_, "text": profiles}).sort_values(by=['cluster']).reset_index(drop=True)`.
Rows pair the label and the text columns positionally; `sort_values` reorders
the rows by the `cluster` key; `reset_index(drop=True)` renumbers rows and
changes no data. -/
def makeDf (labels : List ℕ) (texts : List String) : List (ℕ × String) :=
  (List.zip labels texts).mergeSort clusterLe

/-- The values the notebook holds after the run: the first embedding (a raw
list), the three animal vectors (NumPy arrays), the two distances, the
vectorized profiles (raw lists), the cluster labels and the displayed table. -/
structure NotebookResult where
  embedding : List ℝ
  dog_vector : Array ℝ
  cat_vector : Array ℝ
  penguin_vector : Array ℝ
  distance_dog_to_cat : ℝ
  distance_dog_to_penguin : ℝ
  profiles_vectorized : List (List ℝ)
  labels : List ℕ
  df : List (ℕ × String)

/-- The notebook, cells in execution order: read the credential, fetch the
`"Hello, world!"` embedding, fetch the dog/cat/penguin vectors through
`get_embedding` (each using the default model), compute the two Euclidean
distances, vectorize the five profiles, fit k-means, and build the displayed
table. -/
noncomputable def notebook (fit : KMeansOracle) : Eff NotebookResult :=
  Eff.bind api_key_cell (fun _key =>
  Eff.bind embedding_cell (fun embedding =>
  Eff.bind (get_embedding "dog" model_id) (fun dog_vector =>
  Eff.bind (get_embedding "cat" model_id) (fun cat_vector =>
  Eff.bind (get_embedding "penguin" model_id) (fun penguin_vector =>
    let distance_dog_to_cat := npLinalgNorm (npSub dog_vector cat_vector)
    let distance_dog_to_penguin := npLinalgNorm (npSub dog_vector penguin_vector)
    Eff.bind profiles_vectorized_cell (fun profiles_vectorized =>
      let labels := kmeansFitStep fit profiles_vectorized
      let df := makeDf labels profiles
      .pure
        { embedding := embedding
          dog_vector := dog_vector
          cat_vector := cat_vector
          penguin_vector := penguin_vector
          distance_dog_to_cat := distance_dog_to_cat
          distance_dog_to_penguin := distance_dog_to_penguin
          profiles_vectorized := profiles_vectorized
          labels := labels
          df := df }))))))

/-- The library calls of the notebook, as external calls that may raise.  The
model `notebook` above treats the library as total functions (the spec's own
modeling of the fit: seed, count and data in, labels out); this oracle is the
refinement in which each library call may also raise, as the Python calls can:

* `normSub a b` is the distance expression `np.linalg.norm(a - b)` — the norm
  itself is total on any one-dimensional array, but the elementwise
  subtraction raises on incompatible shapes, so the composite expression is
  one fallible call;
* `kmeansFit` is `KMeans(...).fit(data)` followed by reading `labels_` —
  it raises, for example, on a ragged list of embedding lists;
* `dataFrameSorted labels texts` is
  `pd.DataFrame({"cluster": labels, "text": texts}).sort_values(by=['cluster']).reset_index(drop=True)`
  — `pd.DataFrame` raises when the two columns have different lengths, while
  `sort_values` and `reset_index` are total.

The `np.array` cast inside `get_embedding` converts a Python list of floats
and cannot raise, so it is not an error site. -/
structure LibOracle where
  normSub : Array ℝ → Array ℝ → Except PyErr ℝ
  kmeansFit : KMeansArgs → List (List ℝ) → Except PyErr (List ℕ)
  dataFrameSorted : List ℕ → List String → Except PyErr (List (ℕ × String))

/-- The notebook run with every external call explicit and fallible: the same
cells, in the same order, as `notebook`, but the library calls go through a
`LibOracle` and their failures propagate exactly as the environment's and the
endpoint's do — there is no handler anywhere in the source. -/
def notebookRunF (env : EnvMap) (api : EmbedOracle) (lib : LibOracle) :
    Except PyErr NotebookResult :=
  match api_key_cell.run env api with
  | .error e => .error e
  | .ok _key =>
  match embedding_cell.run env api with
  | .error e => .error e
  | .ok embedding =>
  match (get_embedding "dog" model_id).run env api with
  | .error e => .error e
  | .ok dog_vector =>
  match (get_embedding "cat" model_id).run env api with
  | .error e => .error e
  | .ok cat_vector =>
  match (get_embedding "penguin" model_id).run env api with
  | .error e => .error e
  | .ok penguin_vector =>
  match lib.normSub dog_vector cat_vector with
  | .error e => .error e
  | .ok distance_dog_to_cat =>
  match lib.normSub dog_vector penguin_vector with
  | .error e => .error e
  | .ok distance_dog_to_penguin =>
  match profiles_vectorized_cell.run env api with
  | .error e => .error e
  | .ok profiles_vectorized =>
  match lib.kmeansFit kmeansArgs profiles_vectorized with
  | .error e => .error e
  | .ok labels =>
  match lib.dataFrameSorted labels profiles with
  | .error e => .error e
  | .ok df =>
      .ok { embedding := embedding
            dog_vector := dog_vector
            cat_vector := cat_vector
            penguin_vector := penguin_vector
            distance_dog_to_cat := distance_dog_to_cat
            distance_dog_to_penguin := distance_dog_to_penguin
            profiles_vectorized := profiles_vectorized
            labels := labels
            df := df }

/-! Semantics of sequencing: how `run` and `callLog` act on `Eff.bind`. -/

theorem Eff.run_bind {α β : Type} (e : Eff α) (f : α → Eff β)
    (env : EnvMap) (api : EmbedOracle) :
    (e.bind f).run env api =
      match e.run env api with
      | .ok a => (f a).run env api
      | .error err => .error err := by
  induction e with
  | pure a => rfl
  | envRead n k ih =>
      simp only [Eff.bind, Eff.run]
      cases env n with
      | none => rfl
      | some v => exact ih v
  | embedCreate s m k ih =>
      simp only [Eff.bind, Eff.run]
      cases api s m with
      | ok v => exact ih v
      | error err => rfl

theorem Eff.callLog_bind {α β : Type} (e : Eff α) (f : α → Eff β)
    (env : EnvMap) (api : EmbedOracle) :
    (e.bind f).callLog env api =
      e.callLog env api ++
        match e.run env api with
        | .ok a => (f a).callLog env api
        | .error _ => [] := by
  induction e with
  | pure a => rfl
  | envRead n k ih =>
      simp only [Eff.bind, Eff.callLog, Eff.run]
      cases env n with
      | none => rfl
      | some v => simp [ih v]
  | embedCreate s m k ih =>
      simp only [Eff.bind, Eff.callLog, Eff.run]
      cases api s m with
      | ok v => simp [ih v]
      | error err => rfl

/-! Behavior of the vectorization loop. -/

theorem profilesLoop_run_ok (model : String) (env : EnvMap) (api : EmbedOracle)
    (g : String → List ℝ) :
    ∀ (ps : List String) (acc : List (List ℝ)),
      (∀ p ∈ ps, api p model = .ok (g p)) →
      (profilesLoop model ps acc).run env api = .ok (acc ++ ps.map g) := by
  intro ps
  induction ps with
  | nil =>
      intro acc _
      simp [profilesLoop, Eff.run]
  | cons p rest ih =>
      intro acc h
      simp only [profilesLoop, Eff.run]
      rw [h p (List.mem_cons_self p rest)]
      show (profilesLoop model rest (acc ++ [g p])).run env api =
        Except.ok (acc ++ List.map g (p :: rest))
      rw [ih (acc ++ [g p]) (fun q hq => h q (List.mem_cons_of_mem p hq))]
      simp

theorem profilesLoop_run_ok_inv (model : String) (env : EnvMap) (api : EmbedOracle) :
    ∀ (ps : List String) (acc vs : List (List ℝ)),
      (profilesLoop model ps acc).run env api = .ok vs →
      vs.length = acc.length + ps.length ∧
      ∀ v ∈ vs, v ∈ acc ∨ ∃ p ∈ ps, api p model = .ok v := by
  intro ps
  induction ps with
  | nil =>
      intro acc vs h
      simp only [profilesLoop, Eff.run, Except.ok.injEq] at h
      subst h
      simp
  | cons p rest ih =>
      intro acc vs h
      simp only [profilesLoop, Eff.run] at h
      cases hap : api p model with
      | error e => rw [hap] at h; cases h
      | ok l =>
          rw [hap] at h
          obtain ⟨hlen, hmem⟩ := ih (acc ++ [l]) vs h
          refine ⟨by simp only [List.length_append, List.length_cons,
            List.length_nil] at hlen ⊢; omega, ?_⟩
          intro v hv
          rcases hmem v hv with hacc | ⟨q, hq, hqe⟩
          · rcases List.mem_append.1 hacc with h1 | h2
            · exact Or.inl h1
            · simp only [List.mem_singleton] at h2
              subst h2
              exact Or.inr ⟨p, List.mem_cons_self p rest, hap⟩
          · exact Or.inr ⟨q, List.mem_cons_of_mem p hq, hqe⟩

theorem profilesLoop_run_isOk_iff (model : String) (env : EnvMap) (api : EmbedOracle) :
    ∀ (ps : List String) (acc : List (List ℝ)),
      (∃ vs, (profilesLoop model ps acc).run env api = .ok vs) ↔
        ∀ p ∈ ps, ∃ l, api p model = .ok l := by
  intro ps
  induction ps with
  | nil =>
      intro acc
      simp [profilesLoop, Eff.run]
  | cons p rest ih =>
      intro acc
      simp only [profilesLoop, Eff.run]
      cases hap : api p model with
      | error e =>
          constructor
          · rintro ⟨vs, hvs⟩; cases hvs
          · intro h
            obtain ⟨l, hl⟩ := h p (List.mem_cons_self p rest)
            rw [hap] at hl
            cases hl
      | ok l =>
          rw [ih (acc ++ [l])]
          constructor
          · intro h q hq
            rcases List.mem_cons.1 hq with rfl | hmem
            · exact ⟨l, hap⟩
            · exact h q hmem
          · intro h q hq
            exact h q (List.mem_cons_of_mem p hq)

/-- Inversion of a successful notebook run: success means the environment held
the key, each of the four direct embedding requests succeeded, the profile
loop succeeded, and the final state is assembled from exactly the values the
external calls returned. -/
theorem notebook_run_ok_inv (fit : KMeansOracle) (env : EnvMap) (api : EmbedOracle)
    (r : NotebookResult) (h : (notebook fit).run env api = .ok r) :
    ∃ (key : String) (hello dog cat peng : List ℝ) (vecs : List (List ℝ)),
      env "OPENAI_API_KEY" = some key ∧
      api "Hello, world!" model_id = .ok hello ∧
      api "dog" model_id = .ok dog ∧
      api "cat" model_id = .ok cat ∧
      api "penguin" model_id = .ok peng ∧
      (profilesLoop model_id profiles []).run env api = .ok vecs ∧
      r = { embedding := hello
            dog_vector := dog.toArray
            cat_vector := cat.toArray
            penguin_vector := peng.toArray
            distance_dog_to_cat := npLinalgNorm (npSub dog.toArray cat.toArray)
            distance_dog_to_penguin := npLinalgNorm (npSub dog.toArray peng.toArray)
            profiles_vectorized := vecs
            labels := kmeansFitStep fit vecs
            df := makeDf (kmeansFitStep fit vecs) profiles } := by
  unfold notebook at h
  rw [Eff.run_bind] at h
  simp only [api_key_cell, Eff.run] at h
  cases henv : env "OPENAI_API_KEY" with
  | none => rw [henv] at h; simp only [] at h; exact Except.noConfusion h
  | some key =>
  rw [henv] at h
  simp only [Eff.run] at h
  rw [Eff.run_bind] at h
  simp only [embedding_cell, Eff.run] at h
  cases hhello : api "Hello, world!" model_id with
  | error e => rw [hhello] at h; simp only [] at h; exact Except.noConfusion h
  | ok hello =>
  rw [hhello] at h
  simp only [Eff.run] at h
  rw [Eff.run_bind] at h
  simp only [get_embedding, Eff.run] at h
  cases hdog : api "dog" model_id with
  | error e => rw [hdog] at h; simp only [] at h; exact Except.noConfusion h
  | ok dog =>
  rw [hdog] at h
  simp only [Eff.run] at h
  rw [Eff.run_bind] at h
  simp only [get_embedding, Eff.run] at h
  cases hcat : api "cat" model_id with
  | error e => rw [hcat] at h; simp only [] at h; exact Except.noConfusion h
  | ok cat =>
  rw [hcat] at h
  simp only [Eff.run] at h
  rw [Eff.run_bind] at h
  simp only [get_embedding, Eff.run] at h
  cases hpeng : api "penguin" model_id with
  | error e => rw [hpeng] at h; simp only [] at h; exact Except.noConfusion h
  | ok peng =>
  rw [hpeng] at h
  simp only [Eff.run] at h
  rw [Eff.run_bind] at h
  simp only [profiles_vectorized_cell] at h
  cases hloop : (profilesLoop model_id profiles []).run env api with
  | error e => rw [hloop] at h; simp only [] at h; exact Except.noConfusion h
  | ok vecs =>
  rw [hloop] at h
  simp only [Eff.run] at h
  injection h with hr
  exact ⟨key, hello, dog, cat, peng, vecs, rfl, rfl, rfl, rfl, rfl, rfl, hr.symm⟩

/-- Sum of squared differences, from the zipped list form to the indexed form. -/
theorem zipWith_sub_sq_sum (l₁ l₂ : List ℝ) (h : l₁.length = l₂.length) :
    ((List.zipWith (fun x y => x - y) l₁ l₂).map (fun x => x ^ 2)).sum =
      ∑ i ∈ Finset.range l₁.length, (l₁.getD i 0 - l₂.getD i 0) ^ 2 := by
  induction l₁ generalizing l₂ with
  | nil => simp
  | cons a t ih =>
      cases l₂ with
      | nil => simp at h
      | cons b t₂ =>
          simp only [List.zipWith_cons_cons, List.map_cons, List.sum_cons, List.length_cons]
          rw [Finset.sum_range_succ']
          simp only [List.getD_cons_succ, List.getD_cons_zero]
          rw [ih t₂ (by simpa using h)]
          ring

/-- C1: `get_embedding` forwards its input string to the embedding endpoint
exactly once (its call log is the single request, with the given model
identifier, regardless of the outcome), and when the endpoint answers with a
list it returns exactly that list cast to an array: same elements, same
order, same length, no other transformation. -/
theorem get_embedding_single_forward (s m : String) (env : EnvMap) (api : EmbedOracle) :
    (get_embedding s m).callLog env api = [ExtCall.embedCreate s m] ∧
    ∀ l : List ℝ, api s m = .ok l →
      (get_embedding s m).run env api = .ok l.toArray ∧
      l.toArray.toList = l ∧
      l.toArray.size = l.length ∧
      ∀ i : ℕ, l.toArray.getD i 0 = l.getD i 0 := by
  constructor
  · simp only [get_embedding, Eff.callLog]
    cases api s m <;> simp [Eff.callLog]
  · intro l hl
    refine ⟨?_, by simp, by simp, ?_⟩
    · simp [get_embedding, Eff.run, hl]
    · intro i
      simp [List.getD_eq_getElem?_getD]

/-- Closed instance of `get_embedding_single_forward`: one request for the
string "dog", answered by the two-element list `[1, 0]`, comes back as the
array `#[1, 0]`. -/
theorem get_embedding_single_forward_witness :
    ((fun s _ => if s = "dog" then .ok [1, 0] else .error (.apiError "down")) :
        EmbedOracle) "dog" model_id = .ok [(1 : ℝ), 0] ∧
    (get_embedding "dog" model_id).callLog (fun _ => some "k")
        (fun s _ => if s = "dog" then .ok [1, 0] else .error (.apiError "down")) =
      [ExtCall.embedCreate "dog" model_id] ∧
    (get_embedding "dog" model_id).run (fun _ => some "k")
        (fun s _ => if s = "dog" then .ok [1, 0] else .error (.apiError "down")) =
      .ok ([(1 : ℝ), 0]).toArray := by
  have h := get_embedding_single_forward "dog" model_id (fun _ => some "k")
    (fun s _ => if s = "dog" then .ok [1, 0] else .error (.apiError "down"))
  exact ⟨by simp, h.1, (h.2 [1, 0] (by simp)).1⟩

/-- C4: the clustering step is deterministic under the fixed configuration:
two runs of the k-means fit on the same vector set, both with the seed 40 and
the cluster count 2 recorded in `kmeansArgs`, produce the same label
partition. -/
theorem kmeans_fit_deterministic (fit : KMeansOracle) (data : List (List ℝ))
    (firstRun secondRun : List ℕ)
    (h1 : firstRun = kmeansFitStep fit data)
    (h2 : secondRun = kmeansFitStep fit data) :
    firstRun = secondRun := by
  rw [h1, h2]

/-- Closed instance of `kmeans_fit_deterministic` on a two-point data set. -/
theorem kmeans_fit_deterministic_witness :
    kmeansFitStep (fun a d => List.map (fun _ => a.n_clusters - 1) d) [[1], [2]] =
      kmeansFitStep (fun a d => List.map (fun _ => a.n_clusters - 1) d) [[1], [2]] :=
  kmeans_fit_deterministic (fun a d => List.map (fun _ => a.n_clusters - 1) d)
    [[1], [2]] _ _ rfl rfl

/-- C5: the clustering step is a single direct invocation of the library
routine: whatever the library's fit function is, the step's result is exactly
that function applied once to the fixed arguments `n_clusters = 2`,
`n_init = 'auto'`, `random_state = 40` and the unmodified data — nothing is
reimplemented or post-processed. -/
theorem kmeans_single_invocation (fit : KMeansOracle) (data : List (List ℝ)) :
    kmeansFitStep fit data =
      fit { n_clusters := 2, n_init := "auto", random_state := 40 } data := rfl

/-- C8: the distance the notebook computes, `np.linalg.norm` applied to the
elementwise difference of two equal-length vectors, is the Euclidean distance:
the square root of the sum of the squared componentwise differences. -/
theorem np_norm_sub_is_euclidean (v w : Array ℝ) (h : v.size = w.size) :
    npLinalgNorm (npSub v w) =
      Real.sqrt (∑ i ∈ Finset.range v.size, (v.toList.getD i 0 - w.toList.getD i 0) ^ 2) := by
  unfold npLinalgNorm npSub
  rw [Array.toList_zipWith]
  rw [zipWith_sub_sq_sum v.toList w.toList (by simp [h])]

/-- Closed instance of `np_norm_sub_is_euclidean` on the pair `#[3]`, `#[0]`. -/
theorem np_norm_sub_is_euclidean_witness :
    (#[(3 : ℝ)] : Array ℝ).size = (#[(0 : ℝ)] : Array ℝ).size ∧
    npLinalgNorm (npSub #[(3 : ℝ)] #[(0 : ℝ)]) =
      Real.sqrt (∑ i ∈ Finset.range (#[(3 : ℝ)] : Array ℝ).size,
        ((#[(3 : ℝ)] : Array ℝ).toList.getD i 0 - (#[(0 : ℝ)] : Array ℝ).toList.getD i 0) ^ 2) :=
  ⟨rfl, np_norm_sub_is_euclidean #[(3 : ℝ)] #[(0 : ℝ)] rfl⟩

/-- C10: with `OPENAI_API_KEY` absent from the environment, the notebook fails
at the very first credential-loading statement with the `KeyError` for that
name, and its call log is that single environment read: no embedding request,
distance computation, or clustering call is ever reached. -/
theorem missing_key_fails_first (fit : KMeansOracle) (env : EnvMap) (api : EmbedOracle)
    (h : env "OPENAI_API_KEY" = none) :
    (notebook fit).run env api = .error (.keyError "OPENAI_API_KEY") ∧
    (notebook fit).callLog env api = [ExtCall.envRead "OPENAI_API_KEY"] := by
  constructor
  · unfold notebook
    rw [Eff.run_bind]
    simp [api_key_cell, Eff.run, h]
  · unfold notebook
    rw [Eff.callLog_bind]
    simp [api_key_cell, Eff.run, Eff.callLog, h]

/-- Closed instance of `missing_key_fails_first`: the empty environment. -/
theorem missing_key_fails_first_witness :
    (notebook (fun _ d => List.map (fun _ => 0) d)).run (fun _ => none)
        (fun _ _ => .ok []) = .error (.keyError "OPENAI_API_KEY") ∧
    (notebook (fun _ d => List.map (fun _ => 0) d)).callLog (fun _ => none)
        (fun _ _ => .ok []) = [ExtCall.envRead "OPENAI_API_KEY"] :=
  missing_key_fails_first (fun _ d => List.map (fun _ => 0) d)
    (fun _ => none) (fun _ _ => .ok []) rfl

/-! Behavior of the single cells, as `Except` values. -/

theorem api_key_cell_run_eq (env : EnvMap) (api : EmbedOracle) :
    api_key_cell.run env api =
      match env "OPENAI_API_KEY" with
      | some k => .ok k
      | none => .error (.keyError "OPENAI_API_KEY") := by
  simp only [api_key_cell, Eff.run]

theorem embedding_cell_run_eq (env : EnvMap) (api : EmbedOracle) :
    embedding_cell.run env api = api "Hello, world!" model_id := by
  simp only [embedding_cell, Eff.run]
  cases api "Hello, world!" model_id <;> rfl

theorem get_embedding_run_eq (s m : String) (env : EnvMap) (api : EmbedOracle) :
    (get_embedding s m).run env api = (api s m).map List.toArray := by
  simp only [get_embedding, Eff.run]
  cases api s m <;> rfl

theorem except_map_ok {α β : Type} (f : α → β) (a : α) :
    (Except.ok a : Except PyErr α).map f = .ok (f a) := rfl

theorem except_map_error {α β : Type} (f : α → β) (e : PyErr) :
    (Except.error e : Except PyErr α).map f = .error e := rfl

theorem except_not_ok_iff {α : Type} (x : Except PyErr α) :
    (¬ ∃ a, x = .ok a) ↔ ∃ e, x = .error e := by
  cases x <;> simp

theorem option_not_some_iff (o : Option String) :
    (¬ ∃ k, o = some k) ↔ o = none := by
  cases o <;> simp

/-- A notebook run produces a value exactly when the credential is present and
every one of its embedding requests is answered. -/
theorem notebook_run_ok_iff (fit : KMeansOracle) (env : EnvMap) (api : EmbedOracle) :
    (∃ r, (notebook fit).run env api = .ok r) ↔
      ((∃ k, env "OPENAI_API_KEY" = some k) ∧
       (∃ l, api "Hello, world!" model_id = .ok l) ∧
       (∃ l, api "dog" model_id = .ok l) ∧
       (∃ l, api "cat" model_id = .ok l) ∧
       (∃ l, api "penguin" model_id = .ok l) ∧
       ∀ p ∈ profiles, ∃ l, api p model_id = .ok l) := by
  constructor
  · rintro ⟨r, hr⟩
    obtain ⟨key, hello, dog, cat, peng, vecs, henv, hhello, hdog, hcat, hpeng, hloop, -⟩ :=
      notebook_run_ok_inv fit env api r hr
    exact ⟨⟨key, henv⟩, ⟨hello, hhello⟩, ⟨dog, hdog⟩, ⟨cat, hcat⟩, ⟨peng, hpeng⟩,
      (profilesLoop_run_isOk_iff model_id env api profiles []).1 ⟨vecs, hloop⟩⟩
  · rintro ⟨⟨key, henv⟩, ⟨hello, hhello⟩, ⟨dog, hdog⟩, ⟨cat, hcat⟩, ⟨peng, hpeng⟩, hall⟩
    obtain ⟨vecs, hloop⟩ := (profilesLoop_run_isOk_iff model_id env api profiles []).2 hall
    refine ⟨{ embedding := hello
              dog_vector := dog.toArray
              cat_vector := cat.toArray
              penguin_vector := peng.toArray
              distance_dog_to_cat := npLinalgNorm (npSub dog.toArray cat.toArray)
              distance_dog_to_penguin := npLinalgNorm (npSub dog.toArray peng.toArray)
              profiles_vectorized := vecs
              labels := kmeansFitStep fit vecs
              df := makeDf (kmeansFitStep fit vecs) profiles }, ?_⟩
    unfold notebook
    rw [Eff.run_bind]
    simp only [api_key_cell, Eff.run]
    rw [henv]
    simp only []
    rw [Eff.run_bind]
    simp only [embedding_cell, Eff.run]
    rw [hhello]
    simp only []
    rw [Eff.run_bind]
    simp only [get_embedding, Eff.run]
    rw [hdog]
    simp only []
    rw [Eff.run_bind]
    simp only [get_embedding, Eff.run]
    rw [hcat]
    simp only []
    rw [Eff.run_bind]
    simp only [get_embedding, Eff.run]
    rw [hpeng]
    simp only []
    rw [Eff.run_bind]
    simp only [profiles_vectorized_cell]
    rw [hloop]
    simp only [Eff.run]

/-- A fallible-library notebook run produces a value exactly when the
credential is present, every embedding request is answered, and every library
call succeeds on the arguments the run feeds it. -/
theorem notebookRunF_ok_iff (env : EnvMap) (api : EmbedOracle) (lib : LibOracle) :
    (∃ r, notebookRunF env api lib = .ok r) ↔
      ((∃ k, env "OPENAI_API_KEY" = some k) ∧
       (∃ l, api "Hello, world!" model_id = .ok l) ∧
       (∃ l, api "dog" model_id = .ok l) ∧
       (∃ l, api "cat" model_id = .ok l) ∧
       (∃ l, api "penguin" model_id = .ok l) ∧
       (∀ dogl catl, api "dog" model_id = .ok dogl → api "cat" model_id = .ok catl →
          ∃ d, lib.normSub dogl.toArray catl.toArray = .ok d) ∧
       (∀ dogl pengl, api "dog" model_id = .ok dogl → api "penguin" model_id = .ok pengl →
          ∃ d, lib.normSub dogl.toArray pengl.toArray = .ok d) ∧
       (∀ p ∈ profiles, ∃ l, api p model_id = .ok l) ∧
       (∀ vecs, (profilesLoop model_id profiles []).run env api = .ok vecs →
          ∃ ls, lib.kmeansFit kmeansArgs vecs = .ok ls) ∧
       (∀ vecs ls, (profilesLoop model_id profiles []).run env api = .ok vecs →
          lib.kmeansFit kmeansArgs vecs = .ok ls →
          ∃ t, lib.dataFrameSorted ls profiles = .ok t)) := by
  constructor
  · rintro ⟨r, h⟩
    unfold notebookRunF at h
    rw [api_key_cell_run_eq] at h
    cases henv : env "OPENAI_API_KEY" with
    | none => rw [henv] at h; simp only [] at h; exact Except.noConfusion h
    | some key =>
    rw [henv] at h
    simp only [] at h
    rw [embedding_cell_run_eq] at h
    cases hhello : api "Hello, world!" model_id with
    | error e => rw [hhello] at h; simp only [] at h; exact Except.noConfusion h
    | ok hello =>
    rw [hhello] at h
    simp only [] at h
    rw [get_embedding_run_eq] at h
    cases hdog : api "dog" model_id with
    | error e =>
        rw [hdog] at h; rw [except_map_error] at h; simp only [] at h
        exact Except.noConfusion h
    | ok dogl =>
    rw [hdog] at h
    rw [except_map_ok] at h
    simp only [] at h
    rw [get_embedding_run_eq] at h
    cases hcat : api "cat" model_id with
    | error e =>
        rw [hcat] at h; rw [except_map_error] at h; simp only [] at h
        exact Except.noConfusion h
    | ok catl =>
    rw [hcat] at h
    rw [except_map_ok] at h
    simp only [] at h
    rw [get_embedding_run_eq] at h
    cases hpeng : api "penguin" model_id with
    | error e =>
        rw [hpeng] at h; rw [except_map_error] at h; simp only [] at h
        exact Except.noConfusion h
    | ok pengl =>
    rw [hpeng] at h
    rw [except_map_ok] at h
    simp only [] at h
    cases hn1 : lib.normSub dogl.toArray catl.toArray with
    | error e => rw [hn1] at h; simp only [] at h; exact Except.noConfusion h
    | ok d1 =>
    rw [hn1] at h
    simp only [] at h
    cases hn2 : lib.normSub dogl.toArray pengl.toArray with
    | error e => rw [hn2] at h; simp only [] at h; exact Except.noConfusion h
    | ok d2 =>
    rw [hn2] at h
    simp only [] at h
    simp only [profiles_vectorized_cell] at h
    cases hloop : (profilesLoop model_id profiles []).run env api with
    | error e => rw [hloop] at h; simp only [] at h; exact Except.noConfusion h
    | ok vecs =>
    rw [hloop] at h
    simp only [] at h
    cases hfit : lib.kmeansFit kmeansArgs vecs with
    | error e => rw [hfit] at h; simp only [] at h; exact Except.noConfusion h
    | ok ls =>
    rw [hfit] at h
    simp only [] at h
    cases hdf : lib.dataFrameSorted ls profiles with
    | error e => rw [hdf] at h; simp only [] at h; exact Except.noConfusion h
    | ok t =>
    refine ⟨⟨key, rfl⟩, ⟨hello, rfl⟩, ⟨dogl, rfl⟩, ⟨catl, rfl⟩, ⟨pengl, rfl⟩,
      ?_, ?_, ?_, ?_, ?_⟩
    · intro a b h1 h2
      injection h1 with h1
      injection h2 with h2
      subst h1
      subst h2
      exact ⟨d1, hn1⟩
    · intro a b h1 h2
      injection h1 with h1
      injection h2 with h2
      subst h1
      subst h2
      exact ⟨d2, hn2⟩
    · exact (profilesLoop_run_isOk_iff model_id env api profiles []).1 ⟨vecs, hloop⟩
    · intro v h1
      injection h1 with h1
      subst h1
      exact ⟨ls, hfit⟩
    · intro v l h1 h2
      injection h1 with h1
      subst h1
      rw [hfit] at h2
      injection h2 with h2
      subst h2
      exact ⟨t, hdf⟩
  · rintro ⟨⟨key, henv⟩, ⟨hello, hhello⟩, ⟨dogl, hdog⟩, ⟨catl, hcat⟩, ⟨pengl, hpeng⟩,
      hn1, hn2, hall, hfit, hdf⟩
    obtain ⟨vecs, hloop⟩ := (profilesLoop_run_isOk_iff model_id env api profiles []).2 hall
    obtain ⟨d1, h1⟩ := hn1 dogl catl hdog hcat
    obtain ⟨d2, h2⟩ := hn2 dogl pengl hdog hpeng
    obtain ⟨ls, hls⟩ := hfit vecs hloop
    obtain ⟨t, ht⟩ := hdf vecs ls hloop hls
    refine ⟨{ embedding := hello
              dog_vector := dogl.toArray
              cat_vector := catl.toArray
              penguin_vector := pengl.toArray
              distance_dog_to_cat := d1
              distance_dog_to_penguin := d2
              profiles_vectorized := vecs
              labels := ls
              df := t }, ?_⟩
    unfold notebookRunF
    rw [api_key_cell_run_eq, henv]
    simp only []
    rw [embedding_cell_run_eq, hhello]
    simp only []
    rw [get_embedding_run_eq, hdog, except_map_ok]
    simp only []
    rw [get_embedding_run_eq, hcat, except_map_ok]
    simp only []
    rw [get_embedding_run_eq, hpeng, except_map_ok]
    simp only []
    rw [h1]
    simp only []
    rw [h2]
    simp only []
    simp only [profiles_vectorized_cell]
    rw [hloop]
    simp only []
    rw [hls]
    simp only []
    rw [ht]

/-- C2: no operation in the notebook catches, classifies, or retries a
failure.  In the model where every external call may raise — the environment
lookup of the credential, the nine embedding requests (`"Hello, world!"`, the
three animal strings, the five profiles), and the four library calls (the two
distance expressions, the k-means fit, the table construction), each taken at
the arguments the run actually feeds it — a run raises an error if and only
if one of those calls raises.  Whatever failure an oracle injects propagates
unhandled to the top. -/
theorem notebook_error_iff_external_failure (env : EnvMap) (api : EmbedOracle)
    (lib : LibOracle) :
    (∃ e, notebookRunF env api lib = .error e) ↔
      (env "OPENAI_API_KEY" = none ∨
       (∃ e, api "Hello, world!" model_id = .error e) ∨
       (∃ e, api "dog" model_id = .error e) ∨
       (∃ e, api "cat" model_id = .error e) ∨
       (∃ e, api "penguin" model_id = .error e) ∨
       (∃ dogl catl, api "dog" model_id = .ok dogl ∧ api "cat" model_id = .ok catl ∧
          ∃ e, lib.normSub dogl.toArray catl.toArray = .error e) ∨
       (∃ dogl pengl, api "dog" model_id = .ok dogl ∧ api "penguin" model_id = .ok pengl ∧
          ∃ e, lib.normSub dogl.toArray pengl.toArray = .error e) ∨
       (∃ p ∈ profiles, ∃ e, api p model_id = .error e) ∨
       (∃ vecs, (profilesLoop model_id profiles []).run env api = .ok vecs ∧
          ∃ e, lib.kmeansFit kmeansArgs vecs = .error e) ∨
       (∃ vecs ls, (profilesLoop model_id profiles []).run env api = .ok vecs ∧
          lib.kmeansFit kmeansArgs vecs = .ok ls ∧
          ∃ e, lib.dataFrameSorted ls profiles = .error e)) := by
  rw [← except_not_ok_iff (notebookRunF env api lib)]
  rw [notebookRunF_ok_iff env api lib]
  simp only [not_and_or, not_forall, Classical.not_imp, option_not_some_iff,
    except_not_ok_iff, exists_prop]

/-- C9: the vectorization loop preserves order and length.  When the endpoint
answers every profile (say with `g p` for profile `p`), the loop produces
exactly `profiles.map g`: as many embeddings as profiles, and the `i`-th
element is the embedding returned for the `i`-th profile string. -/
theorem profiles_vectorized_positional (env : EnvMap) (api : EmbedOracle)
    (g : String → List ℝ) (h : ∀ p ∈ profiles, api p model_id = .ok (g p)) :
    profiles_vectorized_cell.run env api = .ok (profiles.map g) ∧
    (profiles.map g).length = profiles.length ∧
    ∀ i, i < profiles.length →
      (profiles.map g).getD i [] = g (profiles.getD i "") := by
  refine ⟨?_, by simp, ?_⟩
  · unfold profiles_vectorized_cell
    simpa using profilesLoop_run_ok model_id env api g profiles [] h
  · intro i hi
    rw [List.getD_eq_getElem?_getD, List.getD_eq_getElem?_getD, List.getElem?_map]
    rw [List.getElem?_eq_getElem hi]
    simp

/-- Closed instance of `profiles_vectorized_positional`: an endpoint answering
every string with `[1]` makes the loop return five copies of `[1]`, in
order. -/
theorem profiles_vectorized_positional_witness :
    (∀ p ∈ profiles,
      ((fun _ _ => .ok [(1 : ℝ)]) : EmbedOracle) p model_id = .ok [(1 : ℝ)]) ∧
    profiles_vectorized_cell.run (fun _ => some "k") (fun _ _ => .ok [(1 : ℝ)]) =
      .ok (profiles.map (fun _ => [(1 : ℝ)])) := by
  refine ⟨fun p _ => rfl, ?_⟩
  exact (profiles_vectorized_positional (fun _ => some "k") (fun _ _ => .ok [(1 : ℝ)])
    (fun _ => [(1 : ℝ)]) (fun p _ => rfl)).1

/-- C3: if the embedding service honors its documented contract for the fixed
model `"text-embedding-ada-002"` — every successful answer is a list of 1536
floats, whatever the input string — then every embedding vector a successful
notebook run receives and holds has length 1536: the `"Hello, world!"`
embedding, the three animal vectors, and each vectorized profile. -/
theorem embeddings_fixed_length (fit : KMeansOracle) (env : EnvMap) (api : EmbedOracle)
    (r : NotebookResult)
    (hapi : ∀ s l, api s model_id = .ok l → l.length = 1536)
    (h : (notebook fit).run env api = .ok r) :
    r.embedding.length = 1536 ∧
    r.dog_vector.size = 1536 ∧
    r.cat_vector.size = 1536 ∧
    r.penguin_vector.size = 1536 ∧
    ∀ v ∈ r.profiles_vectorized, v.length = 1536 := by
  obtain ⟨key, hello, dog, cat, peng, vecs, henv, hhello, hdog, hcat, hpeng, hloop, hr⟩ :=
    notebook_run_ok_inv fit env api r h
  subst hr
  refine ⟨hapi _ _ hhello, by simpa using hapi _ _ hdog, by simpa using hapi _ _ hcat,
    by simpa using hapi _ _ hpeng, ?_⟩
  intro v hv
  obtain ⟨-, hmem⟩ := profilesLoop_run_ok_inv model_id env api profiles [] vecs hloop
  rcases hmem v hv with hacc | ⟨p, -, hpe⟩
  · simp at hacc
  · exact hapi _ _ hpe

/-- C6: after a successful run, assuming the library's documented contract for
the configuration the notebook uses (one label per sample, each label below
`n_clusters`), every profile has exactly one cluster label at its array
position: the label list is as long as the profile list and each label is 0
or 1. -/
theorem labels_one_per_profile (fit : KMeansOracle) (env : EnvMap) (api : EmbedOracle)
    (r : NotebookResult)
    (hfit : ∀ data, (fit kmeansArgs data).length = data.length ∧
      ∀ l ∈ fit kmeansArgs data, l < kmeansArgs.n_clusters)
    (h : (notebook fit).run env api = .ok r) :
    r.labels.length = profiles.length ∧ ∀ l ∈ r.labels, l < 2 := by
  obtain ⟨key, hello, dog, cat, peng, vecs, henv, hhello, hdog, hcat, hpeng, hloop, hr⟩ :=
    notebook_run_ok_inv fit env api r h
  subst hr
  obtain ⟨hlen, -⟩ := profilesLoop_run_ok_inv model_id env api profiles [] vecs hloop
  constructor
  · show (kmeansFitStep fit vecs).length = profiles.length
    rw [kmeansFitStep, (hfit vecs).1]
    simpa using hlen
  · intro l hl
    exact (hfit vecs).2 l hl

/-- The rows of the displayed table: permutation of the zipped columns,
nondecreasing in the label, and containing each positional pair. -/
theorem makeDf_rows (labels : List ℕ) (texts : List String)
    (h : labels.length = texts.length) :
    (makeDf labels texts).Perm (List.zip labels texts) ∧
    List.Pairwise (fun a b => a.1 ≤ b.1) (makeDf labels texts) ∧
    ∀ i, i < texts.length →
      (labels.getD i 0, texts.getD i "") ∈ makeDf labels texts := by
  refine ⟨List.mergeSort_perm _ _, ?_, ?_⟩
  · have hs := @List.sorted_mergeSort (ℕ × String) clusterLe
      (fun a b c h1 h2 => by
        simp only [clusterLe, decide_eq_true_eq] at h1 h2 ⊢; omega)
      (fun a b => by
        simp only [clusterLe]
        rcases Nat.le_total a.1 b.1 with hab | hab <;> simp [hab])
      (List.zip labels texts)
    exact hs.imp (fun hab => by simpa [clusterLe] using hab)
  · intro i hi
    have hiz : i < (List.zip labels texts).length := by
      simp [List.length_zip, h, hi]
    have hz : (List.zip labels texts)[i] = (labels[i], texts[i]) := List.getElem_zip
    have hmem : (labels.getD i 0, texts.getD i "") ∈ List.zip labels texts := by
      have h1 : labels.getD i 0 = labels[i] := by
        rw [List.getD_eq_getElem?_getD, List.getElem?_eq_getElem (by omega)]
        rfl
      have h2 : texts.getD i "" = texts[i] := by
        rw [List.getD_eq_getElem?_getD, List.getElem?_eq_getElem hi]
        rfl
      rw [h1, h2, ← hz]
      exact List.getElem_mem hiz
    exact ((List.mergeSort_perm (List.zip labels texts) clusterLe).mem_iff).2 hmem

/-- C7: the displayed table pairs each cluster label with the original profile
text it belongs to.  After a successful run (with the library meeting its
one-label-per-sample contract), the rows of `r.df` are exactly the pairs
(label of profile i, text of profile i) — a permutation of the zipped columns,
nothing altered — reordered so labels appear in nondecreasing order. -/
theorem df_shows_labels_with_texts (fit : KMeansOracle) (env : EnvMap) (api : EmbedOracle)
    (r : NotebookResult)
    (hfit : ∀ data, (fit kmeansArgs data).length = data.length)
    (h : (notebook fit).run env api = .ok r) :
    r.df.Perm (List.zip r.labels profiles) ∧
    List.Pairwise (fun a b => a.1 ≤ b.1) r.df ∧
    ∀ i, i < profiles.length →
      (r.labels.getD i 0, profiles.getD i "") ∈ r.df := by
  obtain ⟨key, hello, dog, cat, peng, vecs, henv, hhello, hdog, hcat, hpeng, hloop, hr⟩ :=
    notebook_run_ok_inv fit env api r h
  subst hr
  obtain ⟨hlen, -⟩ := profilesLoop_run_ok_inv model_id env api profiles [] vecs hloop
  have hlabels : (kmeansFitStep fit vecs).length = profiles.length := by
    rw [kmeansFitStep, hfit vecs]
    simpa using hlen
  exact makeDf_rows (kmeansFitStep fit vecs) profiles hlabels

/-- Concrete environment for closed instances: the key is present. -/
def envW : EnvMap := fun _ => some "test-key"

/-- Concrete endpoint for closed instances: answers every request with a list
of 1536 zeros (the documented length for `"text-embedding-ada-002"`). -/
def apiW : EmbedOracle := fun _ _ => .ok (List.replicate 1536 0)

/-- Concrete clustering library for closed instances: labels every sample 0. -/
def fitW : KMeansOracle := fun _ data => List.map (fun _ => 0) data

/-- The notebook state reached with `envW`, `apiW` and `fitW`. -/
noncomputable def resultW : NotebookResult :=
  { embedding := List.replicate 1536 0
    dog_vector := (List.replicate 1536 (0 : ℝ)).toArray
    cat_vector := (List.replicate 1536 (0 : ℝ)).toArray
    penguin_vector := (List.replicate 1536 (0 : ℝ)).toArray
    distance_dog_to_cat :=
      npLinalgNorm (npSub (List.replicate 1536 (0 : ℝ)).toArray
        (List.replicate 1536 (0 : ℝ)).toArray)
    distance_dog_to_penguin :=
      npLinalgNorm (npSub (List.replicate 1536 (0 : ℝ)).toArray
        (List.replicate 1536 (0 : ℝ)).toArray)
    profiles_vectorized := profiles.map (fun _ => List.replicate 1536 0)
    labels := kmeansFitStep fitW (profiles.map (fun _ => List.replicate 1536 0))
    df := makeDf (kmeansFitStep fitW (profiles.map (fun _ => List.replicate 1536 0))) profiles }

/-- Running the notebook against the concrete oracles reaches `resultW`. -/
theorem notebook_runW : (notebook fitW).run envW apiW = .ok resultW := by
  unfold notebook
  rw [Eff.run_bind]
  simp only [api_key_cell, Eff.run, envW]
  simp only [resultW, profiles, List.map_cons, List.map_nil, List.nil_append,
    List.cons_append, List.append_nil, List.singleton_append]

/-- Closed instance of `embeddings_fixed_length` at the concrete oracles. -/
theorem embeddings_fixed_length_witness :
    (∀ s l, apiW s model_id = .ok l → l.length = 1536) ∧
    resultW.embedding.length = 1536 ∧ resultW.dog_vector.size = 1536 := by
  have hapi : ∀ s l, apiW s model_id = .ok l → l.length = 1536 := by
    intro s l hl
    simp only [apiW, Except.ok.injEq] at hl
    subst hl
    simp only [List.length_replicate]
  have h := embeddings_fixed_length fitW envW apiW resultW hapi notebook_runW
  exact ⟨hapi, h.1, h.2.1⟩

/-- Closed instance of `labels_one_per_profile` at the concrete oracles. -/
theorem labels_one_per_profile_witness :
    (∀ data, (fitW kmeansArgs data).length = data.length ∧
      ∀ l ∈ fitW kmeansArgs data, l < kmeansArgs.n_clusters) ∧
    resultW.labels.length = profiles.length := by
  have hfit : ∀ data, (fitW kmeansArgs data).length = data.length ∧
      ∀ l ∈ fitW kmeansArgs data, l < kmeansArgs.n_clusters := by
    intro data
    refine ⟨by simp [fitW], ?_⟩
    intro l hl
    simp only [fitW, List.mem_map] at hl
    obtain ⟨-, -, hl0⟩ := hl
    subst hl0
    simp [kmeansArgs]
  exact ⟨hfit, (labels_one_per_profile fitW envW apiW resultW hfit notebook_runW).1⟩

/-- Closed instance of `df_shows_labels_with_texts` at the concrete oracles. -/
theorem df_shows_labels_with_texts_witness :
    (∀ data, (fitW kmeansArgs data).length = data.length) ∧
    resultW.df.Perm (List.zip resultW.labels profiles) := by
  have hfit : ∀ data, (fitW kmeansArgs data).length = data.length := by
    intro data
    simp [fitW]
  exact ⟨hfit, (df_shows_labels_with_texts fitW envW apiW resultW hfit notebook_runW).1⟩

end VecDemo
